import Mathlib

/-!
# go-auth-server: session-backed login, logout and the access gate

A shallow embedding of `internal/server/routes.go`, `internal/database/database.go`
and the store configuration of `internal/auth/auth.go`.

Conventions of the embedding

* A Go `error` is a `GoError`; `nil` is `none : Option GoError`.
* A handler is a function from the outcomes of the library calls it makes
  (`gothic.Store.Get`, `session.Save`, `gothic.CompleteUserAuth`, the
  `database.Service` it was built with) to the list of externally visible calls
  it performs, in program order (`Event`).  `log.Printf` lines are not recorded.
* The SQL store is a list of rows with an id counter; individual statements can
  fail through an explicit fault argument.
-/

namespace GoAuth

/-! ## Errors and provider users -/

/-- A Go `error` value.  `ErrNoRows` is the sentinel `sql.ErrNoRows`; every
other error is identified by its text. -/
inductive GoError where
  | ErrNoRows
  | msg (text : String)
  deriving DecidableEq, Repr

/-- The value `goth.User` handed back by the provider exchange. -/
structure GothUser where
  RawData : List (String × String)
  Provider : String
  Email : String
  Name : String
  FirstName : String
  LastName : String
  NickName : String
  Description : String
  UserID : String
  AvatarURL : String
  Location : String
  AccessToken : String
  AccessTokenSecret : String
  RefreshToken : String
  ExpiresAt : Int
  IDToken : String
  deriving DecidableEq, Repr

/-! ## Sessions (`gorilla/sessions` as used by the handlers) -/

/-- What a session can hold under a key: a `goth.User`, or a value of some other
dynamic type (on which the assertion `.(goth.User)` fails). -/
inductive Value where
  | user (u : GothUser)
  | other (tag : String)
  deriving DecidableEq, Repr

/-- The map `session.Values`, keyed by strings. -/
abbrev SessionValues := List (String × Value)

/-- Map read `m[k]`; `none` is Go's `nil`. -/
def valuesGet (m : SessionValues) (k : String) : Option Value :=
  m.lookup k

/-- Map write `m[k] = v`. -/
def valuesSet (m : SessionValues) (k : String) (v : Value) : SessionValues :=
  (k, v) :: m.filter (fun p => p.1 != k)

/-- The cookie options `sessions.Options` (the fields the program sets or reads). -/
structure Options where
  Path : String
  MaxAge : Int
  Secure : Bool
  HttpOnly : Bool
  deriving DecidableEq, Repr

/-- A `*sessions.Session` that is not nil. -/
structure Session where
  Values : SessionValues
  Options : Options
  deriving DecidableEq, Repr

/-- The variable `maxAge` of `auth.go`. -/
def maxAge : Int := 8640

/-- The variable `isProd` of `auth.go`. -/
def isProd : Bool := false

/-- The options `NewAuth` gives the cookie store that becomes `gothic.Store`. -/
def NewAuth : Options :=
  { Path := "/", MaxAge := maxAge, Secure := isProd, HttpOnly := false }

/-- The pair returned by `gothic.Store.Get(r, "session")`. -/
structure GetResult where
  session : Option Session
  err : Option GoError
  deriving DecidableEq, Repr

/-! ## Responses and calls made by the handlers -/

/-- The local user record `database.User`. -/
structure User where
  UserID : Int
  Email : String
  Name : String
  Picture : String
  deriving DecidableEq, Repr

/-- Payloads passed to `render.Render`.  Their constructors are called in
`routes.go` but declared outside the files at hand, so they are kept
uninterpreted. -/
inductive Payload where
  | ErrInvalidRequest (err : GoError)
  | ErrServerError (err : GoError)
  | PostResponseRender (text : String)
  | UserResponseRender (u : User)
  deriving DecidableEq, Repr

/-- What `gothic.BeginAuthHandler` writes to the client: a redirect to the
provider's authorization URL, or a bare status 400 with the error text when no
URL could be obtained. -/
inductive BeginAuth where
  | redirect (url : String)
  | badRequest (text : String)
  deriving DecidableEq, Repr

/-- One externally visible call made by a handler. -/
inductive Event where
  /-- The call `s.db.Login(&user)`. -/
  | dbLogin (u : GothUser)
  /-- The call `render.Render(w, r, p)`. -/
  | render (p : Payload)
  /-- The call `http.Error(w, text, code)`. -/
  | httpError (text : String) (code : Nat)
  /-- The call `session.Save(r, w)` on the session `s`, with the error it returned. -/
  | sessionSave (s : Session) (err : Option GoError)
  /-- The call `http.Redirect(w, r, url, code)`. -/
  | httpRedirect (url : String) (code : Nat)
  /-- The call `gothic.BeginAuthHandler(w, r)` and what it wrote. -/
  | beginAuthHandler (out : BeginAuth)
  /-- The call `next.ServeHTTP` with `u` attached to the request context under "user". -/
  | next (u : GothUser)
  /-- A run-time abort: nil dereference or failed type assertion. -/
  | abort (why : String)
  deriving DecidableEq, Repr

/-! ## `routes.go` -/

/-- Handler `userMiddleware` (routes.go 132-150), as a function of what
`gothic.Store.Get` returned. -/
def userMiddleware (get : GetResult) : List Event :=
  if get.err.isSome then
    [Event.render (Payload.ErrInvalidRequest (GoError.msg "No user session"))]
  else
    match get.session with
    | none => [Event.render (Payload.ErrInvalidRequest (GoError.msg "No user session"))]
    | some s =>
      match valuesGet s.Values "user" with
      | none => [Event.render (Payload.ErrInvalidRequest (GoError.msg "No user session"))]
      | some v =>
        if s.Options.MaxAge < 0 then
          [Event.render (Payload.ErrInvalidRequest (GoError.msg "No user session"))]
        else
          match v with
          | Value.user u => [Event.next u]
          | Value.other _ => [Event.abort "interface conversion"]

/-- Handler `Server.getAuthCallbackFunction` (routes.go 58-88).

* `auth`: the pair returned by `gothic.CompleteUserAuth`;
* `login`: the `Login` method of the server's `database.Service`;
* `get`: the pair returned by `gothic.Store.Get`;
* `saveErr`: the error returned by `session.Save`;
* `restart`: what `gothic.BeginAuthHandler` writes if it is reached. -/
def getAuthCallbackFunction (auth : GothUser × Option GoError)
    (login : GothUser → Int × Option GoError) (get : GetResult)
    (saveErr : Option GoError) (restart : BeginAuth) : List Event :=
  match auth.2 with
  | none =>
    let user := auth.1
    let afterLogin : List Event :=
      Event.dbLogin user ::
        (match (login user).2 with
         | some err => [Event.render (Payload.ErrInvalidRequest err)]
         | none => [])
    match get.err with
    | some _ => afterLogin
    | none =>
      match get.session with
      | none => afterLogin ++ [Event.abort "nil pointer dereference"]
      | some session =>
        let session : Session :=
          { session with Values := valuesSet session.Values "user" (Value.user user) }
        match saveErr with
        | some e => afterLogin ++ [Event.sessionSave session (some e)]
        | none =>
          afterLogin ++
            [Event.sessionSave session none,
             Event.httpRedirect "http://localhost:8080/dashboard" 302]
  | some _ => [Event.beginAuthHandler restart]

/-- Handler `Server.Logout` (routes.go 90-113). -/
def Logout (get : GetResult) (saveErr : Option GoError) : List Event :=
  match get.err with
  | some _ => [Event.httpError "Logout error" 500]
  | none =>
    match get.session with
    | none => [Event.abort "nil pointer dereference"]
    | some session =>
      let session : Session :=
        { Options := { session.Options with MaxAge := -1 }, Values := [] }
      match saveErr with
      | some e => [Event.sessionSave session (some e), Event.httpError "Logout error" 500]
      | none =>
        [Event.sessionSave session none,
         Event.render (Payload.PostResponseRender "Logged out successfully")]

/-- The session a run saved without error, if any (the last such call). -/
def savedSession (evs : List Event) : Option Session :=
  evs.foldl (fun acc e =>
    match e with
    | Event.sessionSave s none => some s
    | _ => acc) none

/-- The session left by `n` successive logouts whose `Get` and `Save` succeed.
`reload t` is the session the store hands to the next request when the last
saved one was `t` (the identity if the very same session comes back). -/
def logoutTimes (reload : Session → Session) : Nat → Session → Option Session
  | 0, s => some s
  | n + 1, s =>
    match logoutTimes reload n s with
    | none => none
    | some t => savedSession (Logout { session := some (reload t), err := none } none)

/-! ## `database.go`

Modelling notes

* `Login` reads `users` and `GetUser` reads `blueprint.users`; the connection's
  database is taken to be `blueprint`, so both statements address one table.
* `where auth_id = ?` is string equality.
* `int64` and `int` results are unbounded integers; ids stay far below 2^63.
-/

/-- One row of the table `users`. -/
structure Row where
  user_id : Int
  auth_id : String
  name : String
  email : String
  picture : String
  deriving DecidableEq, Repr

/-- Modelled from the spec: the table `users`, whose declaration is not among
the sources.  The store assigns each new row a unique `user_id` (a counter
`nextId` that only grows) and enforces uniqueness of `auth_id`. -/
structure DB where
  rows : List Row
  nextId : Int
  deriving DecidableEq, Repr

/-- Failures the store can inject into the statements of one call: an error of
the `select` other than `sql.ErrNoRows`, an error of the `insert` other than a
uniqueness violation, an error of `LastInsertId`. -/
structure Faults where
  queryErr : Option String
  execErr : Option String
  lastIdErr : Option String
  deriving DecidableEq, Repr

/-- The first row whose `auth_id` is `auth_id`, as `QueryRow` selects it. -/
def findRow (db : DB) (auth_id : String) : Option Row :=
  db.rows.find? (fun r => r.auth_id == auth_id)

/-- The error of `QueryRow(... where auth_id = ?).Scan(...)`: the injected
fault, `sql.ErrNoRows` when no row matches, `nil` otherwise. -/
def scanErr (queryErr : Option String) (db : DB) (auth_id : String) : Option GoError :=
  match queryErr with
  | some text => some (GoError.msg text)
  | none =>
    match findRow db auth_id with
    | none => some GoError.ErrNoRows
    | some _ => none

/-- Modelled from the spec: `Exec("insert into users(auth_id, name, email,
picture) values(?, ?, ?, ?)")` against the table above.  It fails on an injected
fault or when a row with this `auth_id` exists; otherwise it appends the row
under the next `user_id` and reports that id. -/
def Exec (execErr : Option String) (db : DB) (auth_id name email picture : String) :
    Except GoError Int × DB :=
  match execErr with
  | some text => (Except.error (GoError.msg text), db)
  | none =>
    if db.rows.any (fun r => r.auth_id == auth_id) then
      (Except.error (GoError.msg "Duplicate entry"), db)
    else
      (Except.ok db.nextId,
       { rows := db.rows ++ [{ user_id := db.nextId, auth_id := auth_id, name := name,
                               email := email, picture := picture }],
         nextId := db.nextId + 1 })

/-- The call `res.LastInsertId()`. -/
def LastInsertId (lastIdErr : Option String) (res : Int) : Except GoError Int :=
  match lastIdErr with
  | some text => Except.error (GoError.msg text)
  | none => Except.ok res

/-- Method `service.Login` (database.go 75-100).  `concurrent` is what other
connections commit between this call's `select` and its `insert` (the identity
when the call runs alone).  The result is the returned pair and the table
afterwards. -/
def Login (f : Faults) (concurrent : DB → DB) (db : DB) (user : GothUser) :
    (Int × Option GoError) × DB :=
  let userID : Int :=
    match f.queryErr, findRow db user.UserID with
    | none, some r => r.user_id
    | _, _ => 0
  let err := scanErr f.queryErr db user.UserID
  if err ≠ none ∧ err ≠ some GoError.ErrNoRows then
    ((-1, err), db)
  else if err = some GoError.ErrNoRows then
    let db := concurrent db
    match Exec f.execErr db user.UserID user.Name user.Email user.AvatarURL with
    | (Except.error _, db) =>
      ((-1, some (GoError.msg "Could not save user. Try again later")), db)
    | (Except.ok res, db) =>
      match LastInsertId f.lastIdErr res with
      | Except.error _ =>
        ((-1, some (GoError.msg "could not retreive new user id. Try again later")), db)
      | Except.ok lastID => ((lastID, none), db)
  else
    ((userID, none), db)

/-- Method `service.GetUser` (database.go 102-122): the returned pair `(*User, error)`. -/
def GetUser (queryErr : Option String) (db : DB) (auth_id : String) :
    Option User × Option GoError :=
  let scanned : Int × String × String × String :=
    match queryErr, findRow db auth_id with
    | none, some r => (r.user_id, r.name, r.email, r.picture)
    | _, _ => (0, "", "", "")
  let err := scanErr queryErr db auth_id
  if err ≠ none ∧ err ≠ some GoError.ErrNoRows then
    (none, err)
  else
    (some { UserID := scanned.1, Name := scanned.2.1, Email := scanned.2.2.1,
            Picture := scanned.2.2.2 }, none)

/-- No two rows share an `auth_id`. -/
def UniqueAuth (db : DB) : Prop :=
  (db.rows.map (fun r => r.auth_id)).Nodup

/-- Every `user_id` in the table was handed out by the counter. -/
def IdsBelowCounter (db : DB) : Prop :=
  ∀ r ∈ db.rows, r.user_id < db.nextId

instance (db : DB) : Decidable (UniqueAuth db) :=
  inferInstanceAs (Decidable (List.Nodup _))

instance (db : DB) : Decidable (IdsBelowCounter db) :=
  inferInstanceAs (Decidable (∀ r ∈ db.rows, r.user_id < db.nextId))

/-! ## Sample data -/

/-- The identity `ext-1` / Ada / `ada@example.com`, with no avatar. -/
def ada : GothUser :=
  { RawData := [], Provider := "google", Email := "ada@example.com", Name := "Ada",
    FirstName := "", LastName := "", NickName := "", Description := "", UserID := "ext-1",
    AvatarURL := "", Location := "", AccessToken := "", AccessTokenSecret := "",
    RefreshToken := "", ExpiresAt := 0, IDToken := "" }

/-- The zero value `goth.User{}`, returned next to an error. -/
def zeroGothUser : GothUser :=
  { RawData := [], Provider := "", Email := "", Name := "", FirstName := "", LastName := "",
    NickName := "", Description := "", UserID := "", AvatarURL := "", Location := "",
    AccessToken := "", AccessTokenSecret := "", RefreshToken := "", ExpiresAt := 0,
    IDToken := "" }

/-- A store call on which nothing fails. -/
def noFaults : Faults :=
  { queryErr := none, execErr := none, lastIdErr := none }

/-- An empty table. -/
def emptyDB : DB :=
  { rows := [], nextId := 1 }

/-- Another login for `ext-1` committing its row first. -/
def otherLoginWins (db : DB) : DB :=
  (Exec none db "ext-1" "Ada L." "ada@work.example" "").2

end GoAuth

namespace GoAuth

/-! ## Facts about the store model -/

theorem findRow_none_iff (db : DB) (a : String) :
    findRow db a = none ↔ ∀ r ∈ db.rows, r.auth_id ≠ a := by
  simp [findRow, List.find?_eq_none]

theorem findRow_some_spec {db : DB} {a : String} {r : Row} (h : findRow db a = some r) :
    r ∈ db.rows ∧ r.auth_id = a := by
  unfold findRow at h
  exact ⟨List.mem_of_find?_eq_some h, by simpa using List.find?_some h⟩

theorem findRow_append_new (db : DB) (n : Int) (row : Row) (h : findRow db row.auth_id = none) :
    findRow { rows := db.rows ++ [row], nextId := n } row.auth_id = some row := by
  unfold findRow at h ⊢
  simp [List.find?_append, h]

theorem Exec_fresh (db : DB) (a nm em pic : String) (h : findRow db a = none) :
    Exec none db a nm em pic =
      (Except.ok db.nextId,
       { rows := db.rows ++ [{ user_id := db.nextId, auth_id := a, name := nm, email := em,
                               picture := pic }],
         nextId := db.nextId + 1 }) := by
  have hany : db.rows.any (fun r => r.auth_id == a) = false := by
    rw [findRow_none_iff] at h
    simpa [List.any_eq_false] using h
  simp [Exec, hany]

theorem Exec_taken (e : Option String) (db : DB) (a nm em pic : String) (r : Row)
    (hr : r ∈ db.rows) (ha : r.auth_id = a) :
    ∃ err, Exec e db a nm em pic = (Except.error err, db) := by
  have hany : db.rows.any (fun r => r.auth_id == a) = true := by
    simp only [List.any_eq_true]
    exact ⟨r, hr, by simp [ha]⟩
  cases e with
  | some text => exact ⟨_, rfl⟩
  | none => exact ⟨GoError.msg "Duplicate entry", by simp [Exec, hany]⟩

theorem Login_query_fault (f : Faults) (c : DB → DB) (db : DB) (u : GothUser) (text : String)
    (hq : f.queryErr = some text) :
    Login f c db u = ((-1, some (GoError.msg text)), db) := by
  simp [Login, scanErr, hq]

theorem Login_found (f : Faults) (c : DB → DB) (db : DB) (u : GothUser) (r : Row)
    (hq : f.queryErr = none) (hr : findRow db u.UserID = some r) :
    Login f c db u = ((r.user_id, none), db) := by
  simp [Login, scanErr, hq, hr]

theorem Login_missing (f : Faults) (c : DB → DB) (db : DB) (u : GothUser)
    (hq : f.queryErr = none) (hr : findRow db u.UserID = none) :
    Login f c db u =
      (match Exec f.execErr (c db) u.UserID u.Name u.Email u.AvatarURL with
       | (Except.error _, db) =>
         ((-1, some (GoError.msg "Could not save user. Try again later")), db)
       | (Except.ok res, db) =>
         match LastInsertId f.lastIdErr res with
         | Except.error _ =>
           ((-1, some (GoError.msg "could not retreive new user id. Try again later")), db)
         | Except.ok lastID => ((lastID, none), db)) := by
  simp [Login, scanErr, hq, hr]

/-- A login that runs alone, finds no row and succeeds returns the counter value
and appends exactly the row built from the identity. -/
theorem Login_creates (f : Faults) (db : DB) (u : GothUser)
    (hr : findRow db u.UserID = none) (hok : (Login f id db u).1.2 = none) :
    Login f id db u =
      ((db.nextId, none),
       { rows := db.rows ++ [{ user_id := db.nextId, auth_id := u.UserID, name := u.Name,
                               email := u.Email, picture := u.AvatarURL }],
         nextId := db.nextId + 1 }) := by
  obtain ⟨q, x, l⟩ := f
  cases q with
  | some text => simp [Login_query_fault ⟨some text, x, l⟩ id db u text rfl] at hok
  | none =>
    rw [Login_missing _ _ _ _ rfl hr] at hok ⊢
    cases x with
    | some text => simp [Exec] at hok
    | none =>
      simp only [id, Exec_fresh db _ _ _ _ hr] at hok ⊢
      cases l with
      | some text => simp [LastInsertId] at hok
      | none => simp [LastInsertId]

/-! ## The access gate -/

/-- C1: whenever the session lookup fails closed (`Store.Get` returned an error,
the session is nil, it has no "user" value, or its MaxAge is negative),
`userMiddleware` makes exactly one call, the rendering of the fixed
"No user session" error, and never calls the downstream handler; the response is
the same constant whatever the session holds and whichever condition applied. -/
theorem userMiddleware_fails_closed (get : GetResult)
    (h : get.err ≠ none ∨ get.session = none ∨
      ∃ s, get.session = some s ∧
        (valuesGet s.Values "user" = none ∨ s.Options.MaxAge < 0)) :
    userMiddleware get =
        [Event.render (Payload.ErrInvalidRequest (GoError.msg "No user session"))] ∧
      ∀ u, Event.next u ∉ userMiddleware get := by
  have key : userMiddleware get =
      [Event.render (Payload.ErrInvalidRequest (GoError.msg "No user session"))] := by
    obtain ⟨sess, err⟩ := get
    unfold userMiddleware
    cases err with
    | some e => simp
    | none =>
      cases sess with
      | none => simp
      | some s =>
        rcases h with h | h | ⟨t, ht, h⟩
        · exact absurd rfl h
        · cases h
        · cases ht
          cases hv : valuesGet s.Values "user" with
          | none => simp [hv]
          | some v =>
            rcases h with h | h
            · rw [hv] at h; cases h
            · simp [hv, h]
  rw [key]
  exact ⟨rfl, by simp⟩

/-- A session that still carries Ada but whose MaxAge is negative is denied with
the constant response. -/
theorem userMiddleware_fails_closed_witness :
    userMiddleware
        { session := some { Values := [("user", Value.user ada)],
                            Options := { NewAuth with MaxAge := -1 } },
          err := none } =
        [Event.render (Payload.ErrInvalidRequest (GoError.msg "No user session"))] ∧
      ∀ u, Event.next u ∉
        userMiddleware
          { session := some { Values := [("user", Value.user ada)],
                              Options := { NewAuth with MaxAge := -1 } },
            err := none } :=
  userMiddleware_fails_closed _ (Or.inr (Or.inr ⟨_, rfl, Or.inr (by decide)⟩))

/-! ## The callback -/

/-- C3: with a provider exchange that succeeds and a store whose `select` fails
(so that `Login` returns an error), the callback renders the error and then goes
on: it saves a session carrying the user and issues the post-login redirect. -/
theorem callback_login_error_goes_on :
    (Login { queryErr := some "connection refused", execErr := none, lastIdErr := none }
        id emptyDB ada).1 = (-1, some (GoError.msg "connection refused")) ∧
    getAuthCallbackFunction (ada, none)
        (fun u => (Login { queryErr := some "connection refused", execErr := none,
                           lastIdErr := none } id emptyDB u).1)
        { session := some { Values := [], Options := NewAuth }, err := none } none
        (BeginAuth.redirect "https://accounts.google.com/o/oauth2/auth") =
      [Event.dbLogin ada,
       Event.render (Payload.ErrInvalidRequest (GoError.msg "connection refused")),
       Event.sessionSave { Values := [("user", Value.user ada)], Options := NewAuth } none,
       Event.httpRedirect "http://localhost:8080/dashboard" 302] := by
  decide

/-- C7: when the exchange yields `user`, `Store.Get` hands back a session (with
the non-negative MaxAge every session of the configured store has) and
`session.Save` succeeds, the callback saves a session on which `userMiddleware`
admits the request and passes exactly `user` to the downstream handler. -/
theorem callback_then_middleware (user : GothUser) (login : GothUser → Int × Option GoError)
    (sess : Session) (restart : BeginAuth) (hage : 0 ≤ sess.Options.MaxAge) :
    ∃ saved,
      savedSession (getAuthCallbackFunction (user, none) login
          { session := some sess, err := none } none restart) = some saved ∧
      valuesGet saved.Values "user" = some (Value.user user) ∧
      userMiddleware { session := some saved, err := none } = [Event.next user] := by
  refine ⟨{ sess with Values := valuesSet sess.Values "user" (Value.user user) }, ?_, ?_, ?_⟩
  · unfold getAuthCallbackFunction
    cases (login user).2 <;> simp [savedSession]
  · simp [valuesGet, valuesSet, List.lookup]
  · have hlt : ¬ sess.Options.MaxAge < 0 := not_lt.mpr hage
    simp [userMiddleware, valuesGet, valuesSet, List.lookup, hlt]

/-- Ada logs in on a fresh session of the configured store (MaxAge 8640). -/
theorem callback_then_middleware_witness :
    0 ≤ NewAuth.MaxAge ∧
    ∃ saved,
      savedSession (getAuthCallbackFunction (ada, none)
          (fun u => (Login noFaults id emptyDB u).1)
          { session := some { Values := [], Options := NewAuth }, err := none } none
          (BeginAuth.redirect "https://accounts.google.com/o/oauth2/auth")) = some saved ∧
      valuesGet saved.Values "user" = some (Value.user ada) ∧
      userMiddleware { session := some saved, err := none } = [Event.next ada] :=
  ⟨by decide, callback_then_middleware ada _ { Values := [], Options := NewAuth } _
    (by decide)⟩

/-- C9 as stated fails: on a failed exchange the callback's only call is
`gothic.BeginAuthHandler`, which here answers with a redirect to the provider;
no error is rendered. -/
theorem failed_exchange_restarts_flow :
    getAuthCallbackFunction (zeroGothUser, some (GoError.msg "could not find a matching session for this request"))
        (fun u => (Login noFaults id emptyDB u).1)
        { session := some { Values := [], Options := NewAuth }, err := none } none
        (BeginAuth.redirect "https://accounts.google.com/o/oauth2/auth") =
      [Event.beginAuthHandler (BeginAuth.redirect "https://accounts.google.com/o/oauth2/auth")] ∧
    ¬ ∃ p, Event.render p ∈
      getAuthCallbackFunction (zeroGothUser, some (GoError.msg "could not find a matching session for this request"))
        (fun u => (Login noFaults id emptyDB u).1)
        { session := some { Values := [], Options := NewAuth }, err := none } none
        (BeginAuth.redirect "https://accounts.google.com/o/oauth2/auth") := by
  refine ⟨rfl, ?_⟩
  rintro ⟨p, hp⟩
  simp [getAuthCallbackFunction] at hp

/-- C9 (amended): on every failed exchange the callback hands the request to
`gothic.BeginAuthHandler` and does nothing else: no call of the store's `Login`,
no session saved, no post-login redirect, no error rendered by the callback
itself. -/
theorem callback_exchange_failure (u : GothUser) (e : GoError)
    (login : GothUser → Int × Option GoError) (get : GetResult) (saveErr : Option GoError)
    (restart : BeginAuth) :
    getAuthCallbackFunction (u, some e) login get saveErr restart =
        [Event.beginAuthHandler restart] ∧
      (∀ v, Event.dbLogin v ∉ getAuthCallbackFunction (u, some e) login get saveErr restart) ∧
      (∀ s err, Event.sessionSave s err ∉
        getAuthCallbackFunction (u, some e) login get saveErr restart) ∧
      (∀ url code, Event.httpRedirect url code ∉
        getAuthCallbackFunction (u, some e) login get saveErr restart) := by
  have key : getAuthCallbackFunction (u, some e) login get saveErr restart =
      [Event.beginAuthHandler restart] := rfl
  rw [key]
  simp

/-! ## Logout -/

/-- C4 as stated fails: when `Store.Get` returns an error (as it does for a
cookie it cannot decode), `Logout` answers `http.Error("Logout error", 500)` and
sends no confirmation. -/
theorem undecodable_cookie_logout_error :
    Logout { session := some { Values := [], Options := NewAuth },
             err := some (GoError.msg "securecookie: the value is not valid") } none =
      [Event.httpError "Logout error" 500] := by
  decide

/-- C4 (amended): when `Store.Get` and `session.Save` both succeed, `Logout`
saves the emptied, expired session and renders "Logged out successfully"; when
`Store.Get` fails it answers `Logout error` / 500 and saves nothing; when
`session.Save` fails it answers `Logout error` / 500 after the attempt. -/
theorem Logout_response :
    (∀ s : Session,
      Logout { session := some s, err := none } none =
        [Event.sessionSave { Values := [], Options := { s.Options with MaxAge := -1 } } none,
         Event.render (Payload.PostResponseRender "Logged out successfully")]) ∧
    (∀ (sess : Option Session) (e : GoError) (saveErr : Option GoError),
      Logout { session := sess, err := some e } saveErr =
        [Event.httpError "Logout error" 500]) ∧
    (∀ (s : Session) (e : GoError),
      Logout { session := some s, err := none } (some e) =
        [Event.sessionSave { Values := [], Options := { s.Options with MaxAge := -1 } }
           (some e),
         Event.httpError "Logout error" 500]) :=
  ⟨fun _ => rfl, fun _ _ _ => rfl, fun _ _ => rfl⟩

theorem logoutTimes_succ (reload : Session → Session) (n : Nat) (s : Session) :
    ∃ t, logoutTimes reload n s = some t ∧
      logoutTimes reload (n + 1) s =
        some { Values := [], Options := { (reload t).Options with MaxAge := -1 } } := by
  induction n with
  | zero => exact ⟨s, rfl, rfl⟩
  | succ k ih =>
    obtain ⟨t, _, h2⟩ := ih
    refine ⟨_, h2, ?_⟩
    rw [logoutTimes, h2]
    rfl

/-- C5: for every session and every n ≥ 1, n logouts whose `Get` and `Save`
succeed leave a saved session with no "user" value and a negative MaxAge, and
`userMiddleware` on that session renders the "No user session" error without
calling the downstream handler. -/
theorem logout_then_middleware (reload : Session → Session) (s : Session) (n : Nat)
    (hn : 1 ≤ n) :
    ∃ t, logoutTimes reload n s = some t ∧
      valuesGet t.Values "user" = none ∧ t.Options.MaxAge < 0 ∧
      userMiddleware { session := some t, err := none } =
        [Event.render (Payload.ErrInvalidRequest (GoError.msg "No user session"))] ∧
      ∀ u, Event.next u ∉ userMiddleware { session := some t, err := none } := by
  obtain ⟨k, rfl⟩ : ∃ k, n = k + 1 := ⟨n - 1, by omega⟩
  obtain ⟨t, _, h2⟩ := logoutTimes_succ reload k s
  refine ⟨_, h2, rfl, by simp, ?_⟩
  have key : userMiddleware
      { session := some { Values := [], Options := { (reload t).Options with MaxAge := -1 } },
        err := none } =
      [Event.render (Payload.ErrInvalidRequest (GoError.msg "No user session"))] := by
    simp [userMiddleware, valuesGet]
  rw [key]
  exact ⟨rfl, by simp⟩

/-- Two logouts on a session that carried Ada. -/
theorem logout_then_middleware_witness :
    1 ≤ 2 ∧
    ∃ t, logoutTimes id 2 { Values := [("user", Value.user ada)], Options := NewAuth } = some t ∧
      valuesGet t.Values "user" = none ∧ t.Options.MaxAge < 0 ∧
      userMiddleware { session := some t, err := none } =
        [Event.render (Payload.ErrInvalidRequest (GoError.msg "No user session"))] ∧
      ∀ u, Event.next u ∉ userMiddleware { session := some t, err := none } :=
  ⟨by decide, logout_then_middleware id _ 2 (by decide)⟩

/-! ## The store: invariants of `Login` running alone -/

theorem Login_table_cases (f : Faults) (db : DB) (u : GothUser) :
    (Login f id db u).2 = db ∨
      (findRow db u.UserID = none ∧
        (Login f id db u).2 =
          { rows := db.rows ++ [{ user_id := db.nextId, auth_id := u.UserID, name := u.Name,
                                  email := u.Email, picture := u.AvatarURL }],
            nextId := db.nextId + 1 }) := by
  obtain ⟨q, x, l⟩ := f
  cases q with
  | some text => left; rw [Login_query_fault ⟨some text, x, l⟩ id db u text rfl]
  | none =>
    cases hr : findRow db u.UserID with
    | some r => left; rw [Login_found ⟨none, x, l⟩ id db u r rfl hr]
    | none =>
      rw [Login_missing ⟨none, x, l⟩ id db u rfl hr]
      cases x with
      | some text => left; simp [Exec]
      | none =>
        right
        refine ⟨rfl, ?_⟩
        simp only [id, Exec_fresh db _ _ _ _ hr]
        cases l <;> simp [LastInsertId]

theorem Login_keeps_ids_below_counter (f : Faults) (db : DB) (u : GothUser)
    (h : IdsBelowCounter db) : IdsBelowCounter (Login f id db u).2 := by
  rcases Login_table_cases f db u with e | ⟨_, e⟩
  · rw [e]; exact h
  · rw [e]
    intro r hr
    simp only [List.mem_append, List.mem_singleton] at hr
    rcases hr with hr | rfl
    · have := h r hr
      show r.user_id < db.nextId + 1
      omega
    · show db.nextId < db.nextId + 1
      omega

theorem Login_keeps_unique_auth (f : Faults) (db : DB) (u : GothUser)
    (h : UniqueAuth db) : UniqueAuth (Login f id db u).2 := by
  rcases Login_table_cases f db u with e | ⟨hmiss, e⟩
  · rw [e]; exact h
  · rw [e]
    unfold UniqueAuth at h ⊢
    rw [findRow_none_iff] at hmiss
    simp only [List.map_append, List.map_cons, List.map_nil]
    refine List.Nodup.append h (List.nodup_singleton _) ?_
    intro a ha hb
    simp only [List.mem_singleton] at hb
    subst hb
    simp only [List.mem_map] at ha
    obtain ⟨r, hr, hra⟩ := ha
    exact hmiss r hr hra

/-! ## The store: claims -/

/-- C2 as stated fails: Ada's lookup finds no row, another login for `ext-1`
commits first, the insert is refused, and `Login` returns -1 with the error
"Could not save user. Try again later" instead of the existing row's id 1. -/
theorem race_loser_gets_error :
    findRow emptyDB ada.UserID = none ∧
    (otherLoginWins emptyDB).rows =
      [{ user_id := 1, auth_id := "ext-1", name := "Ada L.", email := "ada@work.example",
         picture := "" }] ∧
    Login noFaults otherLoginWins emptyDB ada =
      ((-1, some (GoError.msg "Could not save user. Try again later")),
       otherLoginWins emptyDB) := by
  decide

/-- C2 (amended): when the lookup finds no row for the externalId and a row `r`
for it has been committed before the insert, in a table with unique `auth_id`,
then `Login` returns -1 with the error "Could not save user. Try again later"
and leaves the table as the other login made it, so exactly one row carries the
externalId; a later `Login` for the same identity returns `r.user_id` and
changes nothing. -/
theorem Login_after_conflict (f : Faults) (c : DB → DB) (db : DB) (u : GothUser) (r : Row)
    (hq : f.queryErr = none) (hmiss : ∀ x ∈ db.rows, x.auth_id ≠ u.UserID)
    (hr : r ∈ (c db).rows) (ha : r.auth_id = u.UserID) (huniq : UniqueAuth (c db)) :
    Login f c db u =
        ((-1, some (GoError.msg "Could not save user. Try again later")), c db) ∧
      ((c db).rows.map (fun x => x.auth_id)).count u.UserID = 1 ∧
      ∀ f2 : Faults, f2.queryErr = none →
        Login f2 id (c db) u = ((r.user_id, none), c db) := by
  refine ⟨?_, ?_, ?_⟩
  · rw [Login_missing f c db u hq ((findRow_none_iff db _).mpr hmiss)]
    obtain ⟨err, he⟩ := Exec_taken f.execErr (c db) u.UserID u.Name u.Email u.AvatarURL r hr ha
    rw [he]
  · exact List.count_eq_one_of_mem huniq (List.mem_map.mpr ⟨r, hr, ha⟩)
  · intro f2 hq2
    cases hfind : findRow (c db) u.UserID with
    | none => exact absurd ha ((findRow_none_iff _ _).mp hfind r hr)
    | some r2 =>
      obtain ⟨hr2, ha2⟩ := findRow_some_spec hfind
      have hsame : r2 = r :=
        List.inj_on_of_nodup_map huniq hr2 hr (ha2.trans ha.symm)
      rw [Login_found f2 id (c db) u r2 hq2 hfind, hsame]

/-- Ada loses the race against the other login for `ext-1` on an empty table. -/
theorem Login_after_conflict_witness :
    noFaults.queryErr = none ∧ (∀ x ∈ emptyDB.rows, x.auth_id ≠ ada.UserID) ∧
    UniqueAuth (otherLoginWins emptyDB) ∧
    (Login noFaults otherLoginWins emptyDB ada =
        ((-1, some (GoError.msg "Could not save user. Try again later")),
         otherLoginWins emptyDB) ∧
      ((otherLoginWins emptyDB).rows.map (fun x => x.auth_id)).count ada.UserID = 1 ∧
      ∀ f2 : Faults, f2.queryErr = none →
        Login f2 id (otherLoginWins emptyDB) ada = (((1 : Int), none), otherLoginWins emptyDB)) :=
  ⟨rfl, by simp [emptyDB], by decide,
    Login_after_conflict noFaults otherLoginWins emptyDB ada
      { user_id := 1, auth_id := "ext-1", name := "Ada L.", email := "ada@work.example",
        picture := "" }
      rfl (by simp [emptyDB]) (by decide) rfl (by decide)⟩

/-- C6: for every table and two identities with the same externalId, two
successful `Login` calls in sequence return the same userId and the second call
leaves the table exactly as the first one left it. -/
theorem Login_twice (f1 f2 : Faults) (db : DB) (u1 u2 : GothUser)
    (hid : u1.UserID = u2.UserID)
    (h1 : (Login f1 id db u1).1.2 = none)
    (h2 : (Login f2 id (Login f1 id db u1).2 u2).1.2 = none) :
    (Login f2 id (Login f1 id db u1).2 u2).1.1 = (Login f1 id db u1).1.1 ∧
      (Login f2 id (Login f1 id db u1).2 u2).2 = (Login f1 id db u1).2 := by
  have hq2 : f2.queryErr = none := by
    cases hq : f2.queryErr with
    | none => rfl
    | some text => rw [Login_query_fault f2 id _ u2 text hq] at h2; cases h2
  have hq1 : f1.queryErr = none := by
    cases hq : f1.queryErr with
    | none => rfl
    | some text => rw [Login_query_fault f1 id _ u1 text hq] at h1; cases h1
  cases hr : findRow db u1.UserID with
  | some r =>
    rw [Login_found f1 id db u1 r hq1 hr]
    rw [Login_found f2 id db u2 r hq2 (hid ▸ hr)]
    exact ⟨rfl, rfl⟩
  | none =>
    have hnew : findRow
        { rows := db.rows ++ [{ user_id := db.nextId, auth_id := u1.UserID, name := u1.Name,
                                email := u1.Email, picture := u1.AvatarURL }],
          nextId := db.nextId + 1 } u2.UserID =
        some { user_id := db.nextId, auth_id := u1.UserID, name := u1.Name,
               email := u1.Email, picture := u1.AvatarURL } := by
      rw [← hid]
      exact findRow_append_new db (db.nextId + 1)
        { user_id := db.nextId, auth_id := u1.UserID, name := u1.Name, email := u1.Email,
          picture := u1.AvatarURL } hr
    rw [Login_creates f1 db u1 hr h1]
    dsimp only
    rw [Login_found f2 id _ u2 _ hq2 hnew]
    exact ⟨rfl, rfl⟩

/-- Ada logs in on an empty table, then again under a changed name, email and
avatar: same id 1, and the row still reads Ada / ada@example.com. -/
theorem Login_twice_witness :
    ada.UserID = { ada with Name := "A. Lovelace", Email := "al@example.com",
                            AvatarURL := "http://img/al.png" }.UserID ∧
    (Login noFaults id emptyDB ada).1 = (1, none) ∧
    ((Login noFaults id (Login noFaults id emptyDB ada).2
        { ada with Name := "A. Lovelace", Email := "al@example.com",
                   AvatarURL := "http://img/al.png" }).1.1 =
        (Login noFaults id emptyDB ada).1.1 ∧
      (Login noFaults id (Login noFaults id emptyDB ada).2
        { ada with Name := "A. Lovelace", Email := "al@example.com",
                   AvatarURL := "http://img/al.png" }).2 =
        (Login noFaults id emptyDB ada).2) ∧
    (Login noFaults id emptyDB ada).2.rows =
      [{ user_id := 1, auth_id := "ext-1", name := "Ada", email := "ada@example.com",
         picture := "" }] :=
  ⟨rfl, by decide,
    Login_twice noFaults noFaults emptyDB ada
      { ada with Name := "A. Lovelace", Email := "al@example.com",
                 AvatarURL := "http://img/al.png" }
      rfl (by decide) (by decide),
    by decide⟩

/-- C8: on a table with no row for the identity's externalId (and whose ids all
came from the counter), a successful `Login` appends exactly one row, whose
`user_id` is the returned id and differs from every earlier `user_id`; `GetUser`
with that externalId then returns a `User` with that id and the identity's name,
email and avatar URL. -/
theorem Login_new_identity (f : Faults) (db : DB) (u : GothUser)
    (hmiss : ∀ x ∈ db.rows, x.auth_id ≠ u.UserID) (hids : IdsBelowCounter db)
    (hok : (Login f id db u).1.2 = none) :
    ∃ row : Row,
      (Login f id db u).2.rows = db.rows ++ [row] ∧
      row.user_id = (Login f id db u).1.1 ∧
      row.auth_id = u.UserID ∧
      (∀ x ∈ db.rows, x.user_id ≠ row.user_id) ∧
      GetUser none (Login f id db u).2 u.UserID =
        (some { UserID := (Login f id db u).1.1, Email := u.Email, Name := u.Name,
                Picture := u.AvatarURL }, none) := by
  have hr : findRow db u.UserID = none := (findRow_none_iff db _).mpr hmiss
  rw [Login_creates f db u hr hok]
  refine ⟨{ user_id := db.nextId, auth_id := u.UserID, name := u.Name, email := u.Email,
            picture := u.AvatarURL }, rfl, rfl, rfl, ?_, ?_⟩
  · intro x hx
    have := hids x hx
    show x.user_id ≠ db.nextId
    omega
  · have hnew := findRow_append_new db (db.nextId + 1)
      { user_id := db.nextId, auth_id := u.UserID, name := u.Name, email := u.Email,
        picture := u.AvatarURL } hr
    simp only at hnew
    simp [GetUser, scanErr, hnew]

/-- The identity ext-1 / Ada / ada@example.com with empty avatar on an empty
table: id 1, and `GetUser` reads email "ada@example.com", name "Ada", picture "". -/
theorem Login_new_identity_witness :
    (∀ x ∈ emptyDB.rows, x.auth_id ≠ ada.UserID) ∧ IdsBelowCounter emptyDB ∧
    (Login noFaults id emptyDB ada).1.2 = none ∧
    (∃ row : Row,
      (Login noFaults id emptyDB ada).2.rows = emptyDB.rows ++ [row] ∧
      row.user_id = (Login noFaults id emptyDB ada).1.1 ∧
      row.auth_id = ada.UserID ∧
      (∀ x ∈ emptyDB.rows, x.user_id ≠ row.user_id) ∧
      GetUser none (Login noFaults id emptyDB ada).2 ada.UserID =
        (some { UserID := (Login noFaults id emptyDB ada).1.1, Email := ada.Email,
                Name := ada.Name, Picture := ada.AvatarURL }, none)) ∧
    GetUser none (Login noFaults id emptyDB ada).2 "ext-1" =
      (some { UserID := 1, Email := "ada@example.com", Name := "Ada", Picture := "" }, none) :=
  ⟨by simp [emptyDB], by simp [IdsBelowCounter, emptyDB], by decide,
    Login_new_identity noFaults emptyDB ada (by simp [emptyDB])
      (by simp [IdsBelowCounter, emptyDB]) (by decide),
    by decide⟩

/-- C10: when no row has the given `auth_id` and the query does not otherwise
fail, `GetUser` returns a nil error and a `User` with UserID 0 and empty Name,
Email and Picture; and whenever `GetUser` returns a non-nil error, the query
failed for a reason other than the missing row, and the returned `User` is nil. -/
theorem GetUser_absent_row (q : Option String) (db : DB) (a : String) :
    (q = none → (∀ x ∈ db.rows, x.auth_id ≠ a) →
      GetUser q db a = (some { UserID := 0, Email := "", Name := "", Picture := "" }, none)) ∧
    ((GetUser q db a).2 ≠ none →
      ∃ text, q = some text ∧ GetUser q db a = (none, some (GoError.msg text))) := by
  constructor
  · intro hq hmiss
    have hr : findRow db a = none := (findRow_none_iff db _).mpr hmiss
    simp [GetUser, scanErr, hq, hr]
  · intro herr
    cases q with
    | some text => exact ⟨text, rfl, by simp [GetUser, scanErr]⟩
    | none =>
      exfalso
      apply herr
      cases hr : findRow db a <;> simp [GetUser, scanErr, hr]

/-- An unknown `auth_id` on a table holding Ada, and a query that fails. -/
theorem GetUser_absent_row_witness :
    GetUser none (Login noFaults id emptyDB ada).2 "ext-2" =
        (some { UserID := 0, Email := "", Name := "", Picture := "" }, none) ∧
      ∃ text, some "connection refused" = some text ∧
        GetUser (some "connection refused") emptyDB "ext-2" = (none, some (GoError.msg text)) :=
  ⟨(GetUser_absent_row none (Login noFaults id emptyDB ada).2 "ext-2").1 rfl (by decide),
    (GetUser_absent_row (some "connection refused") emptyDB "ext-2").2 (by decide)⟩

end GoAuth
